import Mathlib

/-!
Shallow embedding of the SISEPUEDE command-line runtime
(src/python/sisepuede_cl.py): the selector helpers `get_models`,
`get_regions`, `get_dimensional_values`, `get_dimensional_dict`, and the
dispatch portion of `main`.  Python dynamic values handed around by
`argparse`/`args.get` are modelled by `Option ArgVal` (with `none` for
Python `None`), the filesystem visible to `os.path.exists`/`pd.read_csv`
by a partial map from paths to parsed tables, and Python exceptions by
`Except`.
-/

deriving instance DecidableEq for Except

namespace SSP

/-- Value stored in the parsed-argument dictionary: a string, an int, a
bool, or some other non-string object.  Python `None` is `Option.none`
one level up. -/
inductive ArgVal where
  | str (s : String)
  | int (n : Int)
  | bool (b : Bool)
  | other
deriving DecidableEq, Repr

/-- Parsed-argument dictionary `vars(parsed_args)`: `args.get k` is `a k`,
with `none` for both an absent key and a stored `None`. -/
def ArgDict : Type := String → Option ArgVal

/-- Table obtained from a successful `pd.read_csv`: named columns of raw
cell tokens (string form of each cell). -/
structure CSVTable where
  cols : List (String × List String)
deriving DecidableEq, Repr

/-- Column lookup, `df[key]` guarded by `key in df.columns`. -/
def CSVTable.getCol (t : CSVTable) (k : String) : Option (List String) :=
  (t.cols.find? (fun c => c.1 = k)).map (fun c => c.2)

/-- Filesystem visible to the script: `fs p = some t` means path `p`
exists and reads as table `t`; `fs p = none` means `os.path.exists p`
is false. -/
def FS : Type := String → Option CSVTable

/-- Exceptions that escape `get_dimensional_values` (both the copy in
sisepuede_cl.py, lines 141-175, and the identical string/file branches in
support_functions.py): the `RuntimeError` for a key column missing from a
file (line 165), the unhandled `ValueError` raised while coercing a file
cell (line 167 has no try/except around the coercion), the `RuntimeError`
wrapping a coercion failure in the inline-string branch (line 173, whose
message includes the offending token), and the `TypeError` Python would
raise on iterating a non-list. -/
inductive DimError where
  | schemaError (path key : String)
  | valueError (token : String)
  | parseError (token : String)
  | typeError
deriving DecidableEq, Repr

/-- Splitting of a character list on a single delimiter character,
mirroring Python `str.split(delim)` for the one-character delimiters this
program uses: the empty string splits to the single empty token, and
adjacent delimiters produce empty tokens. -/
def splitChars (d : Char) : List Char → List (List Char)
  | [] => [[]]
  | c :: cs =>
    match splitChars d cs with
    | [] => if c = d then [[], []] else [[c]]
    | t :: ts => if c = d then [] :: t :: ts else (c :: t) :: ts

/-- Python `s.split(delim)` for the single-character delimiters used at
every call site (the delimiter argument is always the default ","). -/
def pySplit (s : String) (delim : String) : List String :=
  match delim.data with
  | [d] => (splitChars d s.data).map (fun cs => String.mk cs)
  | _ => [s]

/-- Python `s.upper()` on the ASCII strings this program compares. -/
def pyUpper (s : String) : String :=
  String.mk (s.data.map Char.toUpper)

/-- Whitespace stripping performed by Python `int()` before parsing. -/
def pyStrip (s : String) : List Char :=
  ((s.data.dropWhile Char.isWhitespace).reverse.dropWhile Char.isWhitespace).reverse

/-- Python `int()` on the decimal string literals this program feeds it:
optional surrounding whitespace, optional sign, then a nonempty run of
ASCII digits; anything else raises `ValueError` (`none` here). -/
def pyIntDigits (cs : List Char) : Option Nat :=
  if cs ≠ [] ∧ cs.all Char.isDigit then
    some (cs.foldl (fun a c => 10 * a + (c.toNat - 48)) 0)
  else
    none

/-- Python `int()` applied to a string token; see `pyIntDigits`. -/
def pyInt (s : String) : Option Int :=
  match pyStrip s with
  | '-' :: rest => (pyIntDigits rest).map (fun n => -(n : Int))
  | '+' :: rest => (pyIntDigits rest).map (fun n => (n : Int))
  | cs => (pyIntDigits cs).map (fun n => (n : Int))

/-- Python `str()` applied to a string token: the identity, never failing. -/
def pyStr (s : String) : Option String := some s

/-- List comprehension `[return_type(x) for x in tokens]`: coerces each
token left to right and raises (via `errOf`) at the first token the
coercion rejects, producing no partial result. -/
def coerceAll {α : Type} (coe : String → Option α) (errOf : String → DimError) :
    List String → Except DimError (List α)
  | [] => .ok []
  | t :: ts =>
    match coe t with
    | none => .error (errOf t)
    | some v =>
      match coerceAll coe errOf ts with
      | .error e => .error e
      | .ok vs => .ok (v :: vs)

/-- Embedding of `get_dimensional_values` (sisepuede_cl.py lines 141-175),
generic over the `return_type` coercion `coe`.  A non-string input returns
`none` (Python `None`); a string naming an existing file is read as a
table whose column `key` must exist (else `schemaError`) and whose cells
are coerced strictly (raw `valueError` on the first failure); any other
string is split on `delim` and coerced strictly (`parseError` on the
first failure). -/
def getDimensionalValuesWith {α : Type} (coe : String → Option α) (fs : FS)
    (keysIn : Option ArgVal) (key : String) (delim : String) :
    Except DimError (Option (List α)) :=
  match keysIn with
  | some (.str s) =>
    match fs s with
    | some t =>
      match t.getCol key with
      | none => .error (.schemaError s key)
      | some cells =>
        match coerceAll coe .valueError cells with
        | .error e => .error e
        | .ok vs => .ok (some vs)
    | none =>
      match coerceAll coe .parseError (pySplit s delim) with
      | .error e => .error e
      | .ok vs => .ok (some vs)
  | _ => .ok none

/-- The `return_type = int` instance used for the four dimension keys. -/
def getDimensionalValues (fs : FS) (keysIn : Option ArgVal) (key : String)
    (delim : String) : Except DimError (Option (List Int)) :=
  getDimensionalValuesWith pyInt fs keysIn key delim

/-- Registry behind `model_attributes.dict_attributes.get("abbreviation_sector")`
(the `ModelAttributes` class is outside the excerpted sources): its key
values (sector abbreviations) and the `sector` column of its table (full
sector names). -/
structure AttrRegistry where
  key_values : List String
  sectors : List String
deriving DecidableEq, Repr

/-- Embedding of `get_models` (sisepuede_cl.py lines 24-48): `none` for a
non-string input or (case-insensitively) the sentinel `"ALL"`; otherwise
the comma-split tokens filtered to the registry's abbreviations and full
sector names, unknown tokens dropped. -/
def getModels (reg : AttrRegistry) (models : Option ArgVal) : Option (List String) :=
  match models with
  | some (.str s) =>
    if pyUpper s = "ALL" then
      none
    else
      some ((pySplit s ",").filter (fun x => x ∈ reg.key_values ++ reg.sectors))
  | _ => none

/-- Embedding of `get_regions` (sisepuede_cl.py lines 52-81).  The
name-or-ISO lookup `regions_obj.return_region_or_iso` lives in
support_classes.py, outside the excerpted sources; it is modelled from
the spec as an abstract `lookup` returning the canonical region for a
resolvable token and `none` otherwise.  A non-string input yields the
empty list; the exact sentinel `"ALLREGIONS"` yields `none`; otherwise
the tokens from `get_dimensional_values` (with `return_type = str`) are
resolved through `lookup` and the unresolved ones dropped. -/
def getRegions (fs : FS) (lookup : String → Option String) (regionKey : String)
    (v : Option ArgVal) : Except DimError (Option (List String)) :=
  match v with
  | some (.str s) =>
    if s = "ALLREGIONS" then
      .ok none
    else
      match getDimensionalValuesWith pyStr fs (some (.str s)) regionKey "," with
      | .error e => .error e
      | .ok none => .error .typeError
      | .ok (some toks) => .ok (some (toks.filterMap lookup))
  | _ => .ok (some [])

/-- Command-line key for the design dimension (`cl_key_design`). -/
def clKeyDesign : String := "keys_design"

/-- Command-line key for the future dimension (`cl_key_future`). -/
def clKeyFuture : String := "keys_future"

/-- Command-line key for the primary dimension (`cl_key_primary`). -/
def clKeyPrimary : String := "keys_primary"

/-- Command-line key for the strategy dimension (`cl_key_strategy`). -/
def clKeyStrategy : String := "keys_strategy"

/-- The four internal dimension key names `model_attributes.dim_design_id`,
`dim_future_id`, `dim_primary_id`, `dim_strategy_id` (the `ModelAttributes`
class is outside the excerpted sources; the spec names them `design_id`,
`future_id`, `primary_id`, `strategy_id`). -/
structure DimKeys where
  design : String
  future : String
  primary : String
  strategy : String
deriving DecidableEq, Repr

/-- The concrete dimension key names documented in the spec. -/
def dk0 : DimKeys :=
  { design := "design_id", future := "future_id",
    primary := "primary_id", strategy := "strategy_id" }

/-- Conditional insertion `dict_out.update({key: vals}) if vals is not None`. -/
def entryOf (k : String) (o : Option (List Int)) : List (String × List Int) :=
  match o with
  | some vs => [(k, vs)]
  | none => []

/-- Body of `get_dimensional_dict` once the dict check has passed.  If
the primary entry is non-null it alone is resolved; otherwise design,
future and strategy are resolved in that order (exceptions propagate at
the first failure) and the non-null results collected in insertion order.
An empty resulting dictionary is returned as `none`. -/
def getDimensionalDictCore (fs : FS) (dk : DimKeys) (a : ArgDict) :
    Except DimError (Option (List (String × List Int))) :=
  match a clKeyPrimary with
    | some pv =>
      match getDimensionalValues fs (some pv) dk.primary "," with
      | .error e => .error e
      | .ok none => .ok none
      | .ok (some vs) => .ok (some [(dk.primary, vs)])
    | none =>
      match getDimensionalValues fs (a clKeyDesign) dk.design "," with
      | .error e => .error e
      | .ok d =>
        match getDimensionalValues fs (a clKeyFuture) dk.future "," with
        | .error e => .error e
        | .ok f =>
          match getDimensionalValues fs (a clKeyStrategy) dk.strategy "," with
          | .error e => .error e
          | .ok st =>
            let entries :=
              entryOf dk.design d ++ entryOf dk.future f ++ entryOf dk.strategy st
            .ok (if entries.isEmpty then none else some entries)

/-- Embedding of `get_dimensional_dict` (sisepuede_cl.py lines 85-137):
a non-dict argument returns `none`; a dict is resolved by
`getDimensionalDictCore`. -/
def getDimensionalDict (fs : FS) (dk : DimKeys) (args : Option ArgDict) :
    Except DimError (Option (List (String × List Int))) :=
  match args with
  | none => .ok none
  | some a => getDimensionalDictCore fs dk a

/-- Python truthiness of an `args.get` result, for
`not args.get("exclude_fuel_production")`. -/
def truthy : Option ArgVal → Bool
  | none => false
  | some (.str s) => s ≠ ""
  | some (.int n) => n ≠ 0
  | some (.bool b) => b
  | some .other => true

/-- Resolution of the database type (main, lines 535-536): anything other
than the strings "sqlite" and "csv" falls back to "sqlite". -/
def resolveDbType (v : Option ArgVal) : String :=
  match v with
  | some (.str s) => if s = "sqlite" ∨ s = "csv" then s else "sqlite"
  | _ => "sqlite"

/-- Errors that abort `main` before the execution engine is contacted:
the "no valid dimensional subsets" RuntimeError (line 531), the "invalid
specification of regions, input dimensions" RuntimeError (line 551), and
any exception propagating out of the selector helpers. -/
inductive MainError where
  | noScenarios
  | invalidSpec
  | dimErr (e : DimError)
deriving DecidableEq, Repr

/-- The single call into the execution engine (main, lines 557-574): the
arguments of `ssp.SISEPUEDE(...)` and of `sisepuede(...)` as assembled by
`main`.  The `get_models` result is computed by `main` but never passed to
the engine, so it does not appear here. -/
structure EngineCall where
  dbType : String
  idStr : Option ArgVal
  nTrials : Option ArgVal
  randomSeed : Option ArgVal
  regions : Option (List String)
  scenarios : List (String × List Int)
  chunkSize : Nat
  checkResults : Bool
  includeElectricityInEnergy : Bool
  maxAttempts : Option ArgVal
  reinitOutputTableOnVerificationFailure : Bool
  saveInputs : Option ArgVal
deriving DecidableEq, Repr

/-- Embedding of the dispatch portion of `main` (sisepuede_cl.py lines
494-581): region and scenario resolution, the `dict_scenarios is None`
check (line 525), the guard `regions_run is None` / `len(dict_scenarios)
== 0` (lines 546-552), and the assembly of the engine call with its fixed
chunk_size, check_results and
reinitialize_output_table_on_verification_failure arguments. -/
def mainRun (fs : FS) (dk : DimKeys) (lookup : String → Option String)
    (regionKey : String) (a : ArgDict) : Except MainError EngineCall :=
  match getRegions fs lookup regionKey (a "regions") with
  | .error e => .error (.dimErr e)
  | .ok regionsRun =>
    match getDimensionalDict fs dk (some a) with
    | .error e => .error (.dimErr e)
    | .ok none => .error .noScenarios
    | .ok (some scen) =>
      if regionsRun.isNone || scen.isEmpty then
        .error .invalidSpec
      else
        .ok {
          dbType := resolveDbType (a "database_type"),
          idStr := a "id",
          nTrials := a "n_trials",
          randomSeed := a "random_seed",
          regions := regionsRun,
          scenarios := scen,
          chunkSize := 2,
          checkResults := true,
          includeElectricityInEnergy := !(truthy (a "exclude_fuel_production")),
          maxAttempts := a "max_solve_attempts",
          reinitOutputTableOnVerificationFailure := true,
          saveInputs := a "save_inputs" }

/-! Concrete fixtures used to evaluate the embedding on the inputs the
claims name. -/

/-- Empty filesystem: no argument string names an existing file. -/
def fs0 : FS := fun _ => none

/-- Argument dictionary with every key absent. -/
def argsNone : ArgDict := fun _ => none

/-- Registry holding the sector abbreviations and full names documented
in the command-line help text. -/
def regEx : AttrRegistry :=
  { key_values := ["AF", "CE", "EN", "IP"],
    sectors := ["AFOLU", "CircularEconomy", "Energy", "IPPU"] }

/-- Region lookup resolving the tokens "bra" and "chl" and nothing else. -/
def lookup0 : String → Option String :=
  fun s => if s = "bra" then some "brazil"
    else if s = "chl" then some "chile" else none

/-- Arguments with only a region list: regions "bra", no dimension keys. -/
def argsRegOnly : ArgDict :=
  fun k => if k = "regions" then some (.str "bra") else none

/-- Arguments using the documented all-regions sentinel together with a
valid primary key. -/
def argsC1a : ArgDict :=
  fun k => if k = "regions" then some (.str "ALLREGIONS")
    else if k = clKeyPrimary then some (.str "0") else none

/-- Arguments whose regions entry is a non-string object (so region
resolution yields the empty list) together with a valid primary key. -/
def argsC1b : ArgDict :=
  fun k => if k = "regions" then some .other
    else if k = clKeyPrimary then some (.str "0") else none

/-- Arguments supplying primary "10,11" alongside design "1" and
future "2". -/
def argsC2 : ArgDict :=
  fun k => if k = clKeyPrimary then some (.str "10,11")
    else if k = clKeyDesign then some (.str "1")
    else if k = clKeyFuture then some (.str "2") else none

/-- Arguments with design "1,2", future the empty string, strategy and
primary absent. -/
def argsC3 : ArgDict :=
  fun k => if k = clKeyDesign then some (.str "1,2")
    else if k = clKeyFuture then some (.str "") else none

/-- Filesystem holding one file, future_ids.csv: a table with column
future_id and no data rows. -/
def fsC3 : FS :=
  fun p => if p = "future_ids.csv" then some ⟨[("future_id", [])]⟩ else none

/-- Arguments with design "1,2" and future naming the header-only file of
`fsC3`. -/
def argsC3w : ArgDict :=
  fun k => if k = clKeyDesign then some (.str "1,2")
    else if k = clKeyFuture then some (.str "future_ids.csv") else none

/-- Filesystem holding one file, keys.csv: a table whose future_id column
mixes numeric and non-numeric tokens. -/
def fs5 : FS :=
  fun p => if p = "keys.csv" then some ⟨[("future_id", ["0", "abc", "5"])]⟩
    else none

/-- Table lacking the future_id column. -/
def tBad : CSVTable := ⟨[("other_id", ["1"])]⟩

/-- Filesystem holding futures.csv (column future_id with rows 0, 5, 12)
and bad.csv (no future_id column). -/
def fs6 : FS :=
  fun p => if p = "futures.csv" then some ⟨[("future_id", ["0", "5", "12"])]⟩
    else if p = "bad.csv" then some tBad else none

/-- Arguments with regions "bra" and primary key "0": a run that reaches
the execution engine. -/
def argsC10 : ArgDict :=
  fun k => if k = "regions" then some (.str "bra")
    else if k = clKeyPrimary then some (.str "0") else none

/-- Engine call produced by `mainRun` on `argsC10`. -/
def callC10 : EngineCall :=
  { dbType := "sqlite", idStr := none, nTrials := none, randomSeed := none,
    regions := some ["brazil"], scenarios := [("primary_id", [0])],
    chunkSize := 2, checkResults := true, includeElectricityInEnergy := true,
    maxAttempts := none, reinitOutputTableOnVerificationFailure := true,
    saveInputs := none }

/-! Helper lemmas shared by the claim theorems. -/

/-- Unfolding step: on a dict argument, `get_dimensional_dict` runs its
body. -/
theorem getDimensionalDict_some (fs : FS) (dk : DimKeys) (a : ArgDict) :
    getDimensionalDict fs dk (some a) = getDimensionalDictCore fs dk a := rfl

/-- On a string input, `get_dimensional_values` either raises or returns
a concrete list; it never returns Python None. -/
theorem gdvWith_str_ne_ok_none {α : Type} (coe : String → Option α) (fs : FS)
    (s key delim : String) :
    getDimensionalValuesWith coe fs (some (.str s)) key delim ≠ .ok none := by
  unfold getDimensionalValuesWith
  cases hfs : fs s with
  | some t =>
    simp only [hfs]
    cases hcol : t.getCol key with
    | none => simp [hcol]
    | some cells =>
      simp only [hcol]
      cases hc : coerceAll coe .valueError cells <;> simp [hc]
  | none =>
    simp only [hfs]
    cases hc : coerceAll coe .parseError (pySplit s delim) <;> simp [hc]

/-- On a non-string input, `get_dimensional_values` returns Python None. -/
theorem gdvWith_nonstr {α : Type} (coe : String → Option α) (fs : FS)
    (v : Option ArgVal) (key delim : String)
    (h : ∀ s, v ≠ some (.str s)) :
    getDimensionalValuesWith coe fs v key delim = .ok none := by
  cases v with
  | none => rfl
  | some av =>
    cases av with
    | str s => exact absurd rfl (h s)
    | int n => rfl
    | bool b => rfl
    | other => rfl

/-- The comprehension succeeds, in order, when every token coerces. -/
theorem coerceAll_ok {α : Type} (coe : String → Option α)
    (errOf : String → DimError) (ts : List String)
    (h : ∀ t ∈ ts, (coe t).isSome) :
    coerceAll coe errOf ts = .ok (ts.filterMap coe) := by
  induction ts with
  | nil => rfl
  | cons t ts ih =>
    obtain ⟨v, hv⟩ := Option.isSome_iff_exists.mp (h t (by simp))
    unfold coerceAll
    rw [hv, ih (fun x hx => h x (by simp [hx]))]
    simp [List.filterMap_cons, hv]

/-- The comprehension raises at some non-coercible token (the first one)
when any token fails to coerce, yielding no partial result. -/
theorem coerceAll_error {α : Type} (coe : String → Option α)
    (errOf : String → DimError) (ts : List String)
    (h : ∃ t ∈ ts, coe t = none) :
    ∃ b ∈ ts, coe b = none ∧ coerceAll coe errOf ts = .error (errOf b) := by
  induction ts with
  | nil => simp at h
  | cons t ts ih =>
    cases hc : coe t with
    | none =>
      refine ⟨t, by simp, hc, ?_⟩
      unfold coerceAll
      rw [hc]
    | some v =>
      have h' : ∃ x ∈ ts, coe x = none := by
        obtain ⟨b, hb, hbn⟩ := h
        rcases List.mem_cons.mp hb with rfl | hb'
        · rw [hc] at hbn
          exact absurd hbn (by simp)
        · exact ⟨b, hb', hbn⟩
      obtain ⟨b, hb, hbn, heq⟩ := ih h'
      refine ⟨b, by simp [hb], hbn, ?_⟩
      unfold coerceAll
      rw [hc, heq]

/-! Claim theorems. -/

/-- C1: the claim asserts the dispatch guard fails exactly on an empty
concrete region list, a null dimensional mapping, or an empty dimensional
mapping, with the all-regions sentinel (null regions) passing.  The code
inverts the region test: `main` raises on `regions_run is None`, so the
documented ALLREGIONS sentinel aborts the run even with a valid primary
scenario (first and third conjuncts: the dimensional mapping resolved to
a nonempty map, yet dispatch fails), while a regions argument resolving
to the empty list reaches the execution engine with `regions = []`
(second conjunct).  The claim's final part does hold: a null dimensional
resolver result aborts before any engine call (fourth conjunct). -/
theorem c1_guard_inverts_region_sentinel :
    mainRun fs0 dk0 lookup0 "region" argsC1a = .error .invalidSpec ∧
    (mainRun fs0 dk0 lookup0 "region" argsC1b).toOption.map
      (fun c => c.regions) = some (some []) ∧
    getDimensionalDict fs0 dk0 (some argsC1a)
      = .ok (some [(dk0.primary, [0])]) ∧
    mainRun fs0 dk0 lookup0 "region" argsRegOnly = .error .noScenarios := by
  decide

/-- C3 counterexample: on the claim's concrete input, with design "1,2",
future the empty string and strategy null, the future entry does not
resolve to the empty list; splitting "" on the delimiter yields the
single empty token, whose coercion to int raises, so the whole resolution
fails with a parse error instead of returning the claimed map. -/
theorem c3_counterexample :
    getDimensionalDict fs0 dk0 (some argsC3) = .error (.parseError "") ∧
    getDimensionalDict fs0 dk0 (some argsC3)
      ≠ .ok (some [(dk0.design, [1, 2]), (dk0.future, [])]) := by
  decide

/-- C5: the claim (and the command-line help text, "Non-numeric values
are skipped") asserts non-numeric tokens in a file's key column are
skipped.  The code instead coerces every cell with no exception handler:
on a file whose future_id column holds 0, abc, 5 the read raises a
ValueError at the first non-numeric token and returns nothing, rather
than skipping abc and returning the coercible values. -/
theorem c5_file_nonnumeric_raises :
    getDimensionalValues fs5 (some (.str "keys.csv")) "future_id" ","
      = .error (.valueError "abc") ∧
    getDimensionalValues fs5 (some (.str "keys.csv")) "future_id" ","
      ≠ .ok (some [0, 5]) := by
  decide

/-- C2: when the primary selector is present as a (string) input, the
dimensional resolver either raises the reader's exception or returns the
single-entry map holding exactly the primary key with its resolved id
list; the design, future and strategy keys never appear, whatever else
was supplied. -/
theorem c2_primary_precedence (fs : FS) (dk : DimKeys) (a : ArgDict) (s : String)
    (h : a clKeyPrimary = some (.str s)) :
    (∃ e, getDimensionalDict fs dk (some a) = .error e) ∨
    (∃ vs, getDimensionalValues fs (some (.str s)) dk.primary "," = .ok (some vs) ∧
      getDimensionalDict fs dk (some a) = .ok (some [(dk.primary, vs)])) := by
  rw [getDimensionalDict_some]
  unfold getDimensionalDictCore
  rw [h]
  cases hg : getDimensionalValues fs (some (.str s)) dk.primary "," with
  | error e =>
    simp only [hg]
    exact Or.inl ⟨e, rfl⟩
  | ok o =>
    cases o with
    | none => exact absurd hg (gdvWith_str_ne_ok_none pyInt fs s dk.primary ",")
    | some vs =>
      simp only [hg]
      exact Or.inr ⟨vs, rfl, rfl⟩

/-- C2 witness: with primary "10,11", design "1" and future "2" supplied,
the resolver returns exactly the primary entry with ids 10 and 11. -/
theorem c2_witness :
    argsC2 clKeyPrimary = some (ArgVal.str "10,11") ∧
    ((∃ e, getDimensionalDict fs0 dk0 (some argsC2) = .error e) ∨
     (∃ vs, getDimensionalValues fs0 (some (.str "10,11")) dk0.primary ","
        = .ok (some vs) ∧
       getDimensionalDict fs0 dk0 (some argsC2)
        = .ok (some [(dk0.primary, vs)]))) :=
  ⟨by decide, c2_primary_precedence fs0 dk0 argsC2 "10,11" (by decide)⟩

/-- C3 amended: a dimension present in the input whose value read
legitimately yields a zero-length id list (which the code produces for a
file containing only the header row, not for the inline empty string)
still populates the resolver's map with an empty list under that key:
with primary and strategy absent, design resolving to a list and future
resolving to the empty list, the result is the two-entry map with the
future key bound to the empty list, not null and not a failure. -/
theorem c3_empty_dimension_kept (fs : FS) (dk : DimKeys) (a : ArgDict)
    (vs : List Int)
    (hp : a clKeyPrimary = none) (hs : a clKeyStrategy = none)
    (hd : getDimensionalValues fs (a clKeyDesign) dk.design "," = .ok (some vs))
    (hf : getDimensionalValues fs (a clKeyFuture) dk.future "," = .ok (some [])) :
    getDimensionalDict fs dk (some a)
      = .ok (some [(dk.design, vs), (dk.future, [])]) := by
  have hst : getDimensionalValues fs (a clKeyStrategy) dk.strategy "," = .ok none := by
    rw [hs]
    rfl
  rw [getDimensionalDict_some]
  unfold getDimensionalDictCore
  rw [hp]
  simp only [hd, hf, hst]
  simp [entryOf]

/-- C3 amended witness: design "1,2" together with a future file holding
the column future_id and no data rows yields the map with design bound to
1, 2 and future bound to the empty list. -/
theorem c3_empty_dimension_kept_witness :
    getDimensionalDict fsC3 dk0 (some argsC3w)
      = .ok (some [(dk0.design, [1, 2]), (dk0.future, [])]) :=
  c3_empty_dimension_kept fsC3 dk0 argsC3w [1, 2]
    (by decide) (by decide) (by decide) (by decide)

/-- C4: when none of the four dimension inputs is a usable (string)
selector, the resolver's map gets no entries and the resolver returns
null. -/
theorem c4_all_unusable_yields_none (fs : FS) (dk : DimKeys) (a : ArgDict)
    (hp : ∀ s, a clKeyPrimary ≠ some (.str s))
    (hd : ∀ s, a clKeyDesign ≠ some (.str s))
    (hf : ∀ s, a clKeyFuture ≠ some (.str s))
    (hs : ∀ s, a clKeyStrategy ≠ some (.str s)) :
    getDimensionalDict fs dk (some a) = .ok none := by
  have gd : getDimensionalValues fs (a clKeyDesign) dk.design "," = .ok none :=
    gdvWith_nonstr pyInt fs (a clKeyDesign) dk.design "," hd
  have gf : getDimensionalValues fs (a clKeyFuture) dk.future "," = .ok none :=
    gdvWith_nonstr pyInt fs (a clKeyFuture) dk.future "," hf
  have gs : getDimensionalValues fs (a clKeyStrategy) dk.strategy "," = .ok none :=
    gdvWith_nonstr pyInt fs (a clKeyStrategy) dk.strategy "," hs
  rw [getDimensionalDict_some]
  unfold getDimensionalDictCore
  cases hpv : a clKeyPrimary with
  | some pv =>
    have gp : getDimensionalValues fs (some pv) dk.primary "," = .ok none := by
      cases pv with
      | str s => exact absurd hpv (hp s)
      | int n => rfl
      | bool b => rfl
      | other => rfl
    simp only [gp]
  | none =>
    simp only [gd, gf, gs]
    rfl

/-- C4 witness: the input binding design, future, primary and strategy
all to null resolves to null. -/
theorem c4_witness :
    (∀ s : String, argsNone clKeyPrimary ≠ some (ArgVal.str s)) ∧
    getDimensionalDict fs0 dk0 (some argsNone) = .ok none :=
  ⟨fun _ h => Option.noConfusion h,
   c4_all_unusable_yields_none fs0 dk0 argsNone
     (fun _ h => Option.noConfusion h) (fun _ h => Option.noConfusion h)
     (fun _ h => Option.noConfusion h) (fun _ h => Option.noConfusion h)⟩

/-- C6: when the raw input names an existing file, the read fails with
the schema error naming the missing column and the file path whenever the
column named after the dimension key is absent from the table; and on the
well-formed file futures.csv whose column future_id holds the rows 0, 5,
12, reading with key future_id returns those values in order. -/
theorem c6_file_schema (fs : FS) (path key : String) (t : CSVTable)
    (hfs : fs path = some t) (hcol : t.getCol key = none) :
    getDimensionalValues fs (some (.str path)) key ","
      = .error (.schemaError path key) ∧
    getDimensionalValues fs6 (some (.str "futures.csv")) "future_id" ","
      = .ok (some [0, 5, 12]) := by
  constructor
  · unfold getDimensionalValues getDimensionalValuesWith
    simp only [hfs, hcol]
  · decide

/-- C6 witness: the file bad.csv lacks the future_id column, so the read
fails with the schema error naming bad.csv and future_id, while the
well-formed futures.csv read returns 0, 5, 12. -/
theorem c6_witness :
    getDimensionalValues fs6 (some (ArgVal.str "bad.csv")) "future_id" ","
      = .error (.schemaError "bad.csv" "future_id") ∧
    getDimensionalValues fs6 (some (ArgVal.str "futures.csv")) "future_id" ","
      = .ok (some [0, 5, 12]) :=
  c6_file_schema fs6 "bad.csv" "future_id" tBad (by decide) (by decide)

/-- C7: for an inline delimited string (one not naming an existing file),
every token is split on the delimiter and coerced in order: if every
token coerces, the full ordered list is returned; if any token fails to
coerce, the whole call fails with a parse error carrying an offending
token and no partial result; and the string "1,2,3" returns the ordered
list 1, 2, 3. -/
theorem c7_inline_parse (fs : FS) (s key : String) (h : fs s = none) :
    ((∀ t ∈ pySplit s ",", (pyInt t).isSome) →
      getDimensionalValues fs (some (.str s)) key ","
        = .ok (some ((pySplit s ",").filterMap pyInt))) ∧
    ((∃ t ∈ pySplit s ",", pyInt t = none) →
      ∃ b ∈ pySplit s ",", pyInt b = none ∧
        getDimensionalValues fs (some (.str s)) key ","
          = .error (.parseError b)) ∧
    getDimensionalValues (fun _ => none) (some (.str "1,2,3")) key ","
      = .ok (some [1, 2, 3]) := by
  refine ⟨?_, ?_, ?_⟩
  · intro hall
    unfold getDimensionalValues getDimensionalValuesWith
    simp only [h, coerceAll_ok pyInt .parseError _ hall]
  · intro hex
    obtain ⟨b, hb, hbn, heq⟩ := coerceAll_error pyInt .parseError _ hex
    refine ⟨b, hb, hbn, ?_⟩
    unfold getDimensionalValues getDimensionalValuesWith
    simp only [h, heq]
  · rfl

/-- C7 witness: the inline string "1,2,3" with no such file present
returns the ordered list 1, 2, 3. -/
theorem c7_witness :
    getDimensionalValues (fun _ => none) (some (ArgVal.str "1,2,3"))
      "primary_id" "," = .ok (some [1, 2, 3]) :=
  (c7_inline_parse (fun _ => none) "1,2,3" "primary_id" rfl).2.2

/-- C8: the model selector returns null exactly when its input is not a
string or case-insensitively equals the sentinel "ALL"; otherwise it
splits on the delimiter and keeps exactly the tokens present in the
registry's abbreviations or full sector names, so "AFOLU,bogus" returns
the singleton AFOLU (unknown tokens silently dropped) and an input with
no valid tokens returns the empty list, never null. -/
theorem c8_model_selector (reg : AttrRegistry) (v : Option ArgVal) :
    (getModels reg v = none ↔
      ((∀ s, v ≠ some (.str s)) ∨ ∃ s, v = some (.str s) ∧ pyUpper s = "ALL")) ∧
    (∀ s, v = some (.str s) → pyUpper s ≠ "ALL" →
      getModels reg v = some ((pySplit s ",").filter
        (fun x => x ∈ reg.key_values ++ reg.sectors))) ∧
    getModels regEx (some (.str "AFOLU,bogus")) = some ["AFOLU"] ∧
    getModels regEx (some (.str "bogus")) = some [] := by
  refine ⟨?_, ?_, by decide, by decide⟩
  · cases v with
    | none =>
      exact ⟨fun _ => Or.inl (fun s h => by simp at h), fun _ => rfl⟩
    | some av =>
      cases av with
      | str s =>
        by_cases hA : pyUpper s = "ALL"
        · simp only [getModels, if_pos hA]
          exact ⟨fun _ => Or.inr ⟨s, rfl, hA⟩, fun _ => trivial⟩
        · simp only [getModels, if_neg hA]
          constructor
          · intro h
            exact absurd h (by simp)
          · intro h
            rcases h with h | ⟨s', hs', hA'⟩
            · exact absurd rfl (h s)
            · obtain rfl : s' = s := by
                injection hs' with h1
                injection h1 with h2
                exact h2.symm
              exact absurd hA' hA
      | int n =>
        exact ⟨fun _ => Or.inl (fun s h => by simp at h), fun _ => rfl⟩
      | bool b =>
        exact ⟨fun _ => Or.inl (fun s h => by simp at h), fun _ => rfl⟩
      | other =>
        exact ⟨fun _ => Or.inl (fun s h => by simp at h), fun _ => rfl⟩
  · intro s hv hA
    subst hv
    simp only [getModels, if_neg hA]

/-- C8 witness: the sentinel "ALL" yields null via the selector theorem. -/
theorem c8_witness : getModels regEx (some (ArgVal.str "ALL")) = none :=
  ((c8_model_selector regEx (some (ArgVal.str "ALL"))).1).mpr
    (Or.inr ⟨"ALL", rfl, by decide⟩)

/-- C9: the region selector returns null exactly when the input equals
the sentinel "ALLREGIONS"; a non-string input returns the empty list,
not an error; and delimited tokens resolve through the registry lookup
with unresolvable tokens dropped silently, so "bra,xx,chl" with "xx"
unresolvable returns exactly the two resolved codes. -/
theorem c9_region_selector (fs : FS) (lookup : String → Option String)
    (rkey : String) (v : Option ArgVal) :
    (getRegions fs lookup rkey v = .ok none ↔ v = some (.str "ALLREGIONS")) ∧
    ((∀ s, v ≠ some (.str s)) → getRegions fs lookup rkey v = .ok (some [])) ∧
    (∀ r1 r2, lookup "bra" = some r1 → lookup "xx" = none →
      lookup "chl" = some r2 → fs "bra,xx,chl" = none →
      getRegions fs lookup rkey (some (.str "bra,xx,chl"))
        = .ok (some [r1, r2])) := by
  refine ⟨?_, ?_, ?_⟩
  · cases v with
    | none => simp [getRegions]
    | some av =>
      cases av with
      | str s =>
        by_cases hs : s = "ALLREGIONS"
        · subst hs
          simp [getRegions]
        · simp only [getRegions, if_neg hs]
          constructor
          · intro h
            cases hg : getDimensionalValuesWith pyStr fs (some (.str s)) rkey "," with
            | error e =>
              rw [hg] at h
              simp at h
            | ok o =>
              cases o with
              | none =>
                rw [hg] at h
                simp at h
              | some toks =>
                rw [hg] at h
                simp at h
          · intro h
            injection h with h1
            injection h1 with h2
            exact absurd h2 hs
      | int n => simp [getRegions]
      | bool b => simp [getRegions]
      | other => simp [getRegions]
  · intro hns
    cases v with
    | none => rfl
    | some av =>
      cases av with
      | str s => exact absurd rfl (hns s)
      | int n => rfl
      | bool b => rfl
      | other => rfl
  · intro r1 r2 h1 h2 h3 hfs
    have hg : getDimensionalValuesWith pyStr fs (some (.str "bra,xx,chl")) rkey ","
        = .ok (some ["bra", "xx", "chl"]) := by
      unfold getDimensionalValuesWith
      simp only [hfs]
      rfl
    simp [getRegions, hg, List.filterMap_cons, h1, h2, h3]

/-- C9 witness: with a lookup resolving "bra" and "chl" but not "xx",
the input "bra,xx,chl" returns exactly the two resolved regions. -/
theorem c9_witness :
    getRegions fs0 lookup0 "region" (some (ArgVal.str "bra,xx,chl"))
      = .ok (some ["brazil", "chile"]) :=
  (c9_region_selector fs0 lookup0 "region"
      (some (ArgVal.str "bra,xx,chl"))).2.2 "brazil" "chile" rfl rfl rfl rfl

/-- C10: every run request that reaches the execution engine carries
chunk_size 2, check_results true and
reinitialize_output_table_on_verification_failure true, whatever the
command-line arguments were. -/
theorem c10_fixed_run_options (fs : FS) (dk : DimKeys)
    (lookup : String → Option String) (rkey : String) (a : ArgDict)
    (c : EngineCall) (h : mainRun fs dk lookup rkey a = .ok c) :
    c.chunkSize = 2 ∧ c.checkResults = true ∧
    c.reinitOutputTableOnVerificationFailure = true := by
  unfold mainRun at h
  repeat' split at h
  all_goals try (exfalso; exact Except.noConfusion h)
  injection h with h1
  rw [← h1]
  exact ⟨rfl, rfl, rfl⟩

/-- C10 witness: a concrete run with regions "bra" and primary key "0"
reaches the engine, and that call carries the three fixed options. -/
theorem c10_witness :
    mainRun fs0 dk0 lookup0 "region" argsC10 = .ok callC10 ∧
    callC10.chunkSize = 2 ∧ callC10.checkResults = true ∧
    callC10.reinitOutputTableOnVerificationFailure = true :=
  ⟨by decide,
   c10_fixed_run_options fs0 dk0 lookup0 "region" argsC10 callC10 (by decide)⟩

end SSP
